import Mathlib

/-!
Formalisation of the credential / HTTP-envelope layer of the
`thealxlabs/conductor-plugins` repository.

Plugin adapters are `async` TypeScript methods whose only effects are
keychain reads/writes and HTTP round-trips.  We embed them shallowly as
programs in a free-monad style type `Proc`: every `await` of the source
becomes one `Proc` action, so the interleaving points of the cooperative
scheduler are exactly the action boundaries.  A `World` carries the
keychain contents (an association list keyed by `(service, key)`), an
HTTP oracle answering the n-th request of the execution, and an event
log recording issued requests and keychain writes.
-/

/-- A JSON value, carrying exactly the structure the adapters inspect. -/
inductive Json where
  | null : Json
  | bool (b : Bool) : Json
  | num (n : Int) : Json
  | str (s : String) : Json
  | arr (xs : List Json) : Json
  | obj (fields : List (String × Json)) : Json
deriving BEq

/-- Field lookup, the embedding of `data.someField` on a parsed body. -/
def Json.get : Json → String → Option Json
  | .obj fields, key => fields.lookup key
  | _, _ => none

/-- The embedding of reading a field expected to be a string. -/
def Json.asString : Json → Option String
  | .str s => some s
  | _ => none

/-- A thrown JS `Error`, with the optional `status` property that the X
plugin attaches to errors inside its fetch helpers. -/
structure JsError where
  message : String
  status : Option Nat := none
deriving DecidableEq

/-- An outbound HTTP request as the adapters assemble it: method, URL
(base + path, before query-string rendering), query parameters, the
bearer token / OAuth header / API-key header if attached, and the JSON
body if any. -/
structure HttpRequest where
  method : String := "GET"
  url : String
  params : List (String × String) := []
  bearer : Option String := none
  oauthHeader : Option String := none
  apiKeyHeader : Option String := none
  body : Option Json := none

/-- An HTTP response: status, the parsed JSON body (`none` models an
empty or non-JSON body, on which `res.json()` rejects), the raw text
that `res.text()` yields, and `statusText`. -/
structure HttpResponse where
  status : Nat
  body : Option Json := none
  bodyText : String := ""
  statusText : String := ""

/-- The WHATWG fetch `res.ok` flag: status in the inclusive range 200–299. -/
def HttpResponse.ok (r : HttpResponse) : Bool :=
  decide (200 ≤ r.status) && decide (r.status < 300)

/-- Keychain contents: `(service, key) ↦ value` as an association list. -/
def Keychain : Type := List ((String × String) × String)

/-- Modelled from the spec: the Secret Store's `get(service, key)`.  The
`Keychain` class itself lives in `@conductor-plugins/shared`, outside the
repository sources; the spec fixes its contract (`set(s,k,v); get(s,k) == v`,
missing record returns absent, stores bound to one `config_dir` observe
the same records). -/
def Keychain.get (kc : Keychain) (service key : String) : Option String :=
  List.lookup (service, key) kc

/-- Modelled from the spec: the Secret Store's `set(service, key, value)`,
replacing any previous record for the pair (last-writer-wins). -/
def Keychain.set (kc : Keychain) (service key value : String) : Keychain :=
  ((service, key), value) :: kc.filter (fun e => !(decide (e.1 = (service, key)) : Bool))

/-- One observable event of an execution. -/
inductive Event where
  | httpReq (r : HttpRequest)
  | kcSet (service key value : String)

/-- The world a plugin program runs against: keychain state, an HTTP
oracle giving the response to the n-th request issued so far across all
in-flight calls, the running request count, and the event log. -/
structure World where
  kc : Keychain
  oracle : Nat → HttpResponse
  reqCount : Nat := 0
  events : List Event := []

/-- A plugin computation: the shallow embedding of an `async` method
whose awaited effects are keychain reads/writes and HTTP fetches.
`fail` is a thrown `Error`. -/
inductive Proc (α : Type) where
  | ret (a : α)
  | fail (e : JsError)
  | kcGet (service key : String) (k : Option String → Proc α)
  | kcSet (service key value : String) (k : Unit → Proc α)
  | http (req : HttpRequest) (k : HttpResponse → Proc α)

namespace Proc

def bind : Proc α → (α → Proc β) → Proc β
  | .ret a, f => f a
  | .fail e, _ => .fail e
  | .kcGet s k g, f => .kcGet s k (fun r => bind (g r) f)
  | .kcSet s k v g, f => .kcSet s k v (fun r => bind (g r) f)
  | .http r g, f => .http r (fun res => bind (g res) f)

instance : Monad Proc where
  pure := .ret
  bind := Proc.bind

/-- The embedding of a JS `try { … } catch (e) { … }` around a whole
computation. -/
def catchE : Proc α → (JsError → Proc α) → Proc α
  | .ret a, _ => .ret a
  | .fail e, h => h e
  | .kcGet s k g, h => .kcGet s k (fun r => catchE (g r) h)
  | .kcSet s k v g, h => .kcSet s k v (fun r => catchE (g r) h)
  | .http r g, h => .http r (fun res => catchE (g res) h)

end Proc

/-- The embedding of `await res.json()`: resolves with the parsed body,
rejects when the body is empty or not JSON. -/
def resJson (r : HttpResponse) (k : Json → Proc α) : Proc α :=
  match r.body with
  | some j => k j
  | none => .fail { message := "Unexpected end of JSON input" }

/-- The embedding of `await res.json().catch(() => fallback)`. -/
def jsonOr (r : HttpResponse) (fallback : Json) : Json :=
  match r.body with
  | some j => j
  | none => fallback

/-- Run a single program to completion against a world (the sequential,
single-call semantics). -/
def runProc : Proc α → World → Except JsError α × World
  | .ret a, w => (.ok a, w)
  | .fail e, w => (.error e, w)
  | .kcGet s k f, w => runProc (f (w.kc.get s k)) w
  | .kcSet s k v f, w =>
      runProc (f ()) { w with kc := w.kc.set s k v, events := w.events ++ [.kcSet s k v] }
  | .http r f, w =>
      runProc (f (w.oracle w.reqCount))
        { w with reqCount := w.reqCount + 1, events := w.events ++ [.httpReq r] }

/-- Execute one awaited action of a thread; `ret`/`fail` threads are
finished and stay put.  Cooperative concurrency: one action per step. -/
def stepThread : Proc α → World → Proc α × World
  | .ret a, w => (.ret a, w)
  | .fail e, w => (.fail e, w)
  | .kcGet s k f, w => (f (w.kc.get s k), w)
  | .kcSet s k v f, w =>
      (f (), { w with kc := w.kc.set s k v, events := w.events ++ [.kcSet s k v] })
  | .http r f, w =>
      (f (w.oracle w.reqCount),
       { w with reqCount := w.reqCount + 1, events := w.events ++ [.httpReq r] })

/-- Run a pool of threads under an explicit schedule: each entry of the
schedule names the thread that performs its next awaited action. -/
def runThreads : List Nat → List (Proc α) → World → List (Proc α) × World
  | [], ts, w => (ts, w)
  | i :: rest, ts, w =>
      match ts.get? i with
      | none => runThreads rest ts w
      | some t =>
          let s := stepThread t w
          runThreads rest (ts.set i s.1) s.2

/-- Requests in the event log whose URL satisfies a predicate. -/
def countReqs (p : HttpRequest → Bool) (events : List Event) : Nat :=
  events.countP (fun e => match e with | .httpReq r => p r | _ => false)

/-! ## Spotify plugin (`plugins/spotify/src/index.ts`) -/

def SPOTIFY_BASE : String := "https://api.spotify.com/v1"
def SPOTIFY_AUTH : String := "https://accounts.spotify.com"

/-- Options bag of the per-plugin fetch helpers:
`{ method?: string; body?: any; params?: Record<string, string> }`. -/
structure FetchOptions where
  method : String := "GET"
  body : Option Json := none
  params : List (String × String) := []

namespace SpotifyPlugin

/-- Embedding of `SpotifyPlugin.getToken`: read `spotify/access_token`
from the keychain.  The JS falsy test `if (!token)` throws both when the
record is absent and when it holds the empty string. -/
def getToken : Proc String :=
  .kcGet "spotify" "access_token" fun token =>
    match token with
    | some t =>
        if t ≠ "" then .ret t
        else .fail { message :=
          "Spotify not authenticated.\nRun: conductor plugins auth spotify\nOr manually set: conductor plugins config spotify access_token <TOKEN>" }
    | none => .fail { message :=
        "Spotify not authenticated.\nRun: conductor plugins auth spotify\nOr manually set: conductor plugins config spotify access_token <TOKEN>" }

/-- Embedding of `SpotifyPlugin.refreshToken`: read the stored refresh
token and client id, POST the token endpoint, and on success persist the
new access token (and rotated refresh token, when present) before
resolving with it.  JS truthiness on the string fields is modelled as
the non-empty-string test: `if (!refreshToken || !clientId) return null`
resolves with null — issuing no request — when either record is absent
or holds the empty string. -/
def refreshToken : Proc (Option String) :=
  .kcGet "spotify" "refresh_token" fun refreshTok =>
  .kcGet "spotify" "client_id" fun clientId =>
  match refreshTok, clientId with
  | some rt, some cid =>
      if rt = "" ∨ cid = "" then .ret none else
      .http { method := "POST", url := SPOTIFY_AUTH ++ "/api/token",
              body := some (.obj [("grant_type", .str "refresh_token"),
                                  ("refresh_token", .str rt),
                                  ("client_id", .str cid)]) } fun res =>
        if !res.ok then .ret none
        else resJson res fun data =>
          match (data.get "access_token").bind Json.asString with
          | some newTok =>
              if newTok ≠ "" then
                .kcSet "spotify" "access_token" newTok fun _ =>
                  match (data.get "refresh_token").bind Json.asString with
                  | some rt2 =>
                      if rt2 ≠ "" then
                        .kcSet "spotify" "refresh_token" rt2 fun _ => .ret (some newTok)
                      else .ret (some newTok)
                  | none => .ret (some newTok)
              else .ret none
          | none => .ret none
  | _, _ => .ret none

/-- The tail of `spotifyFetch` after the 401-handling branch: 204/202
yield the empty object, other non-ok statuses throw with the server's
`error.message` (falling back to `statusText`), ok responses parse. -/
def finishFetch (res : HttpResponse) : Proc Json :=
  if res.status == 204 || res.status == 202 then .ret (.obj [])
  else if !res.ok then
    .fail { message := "Spotify API " ++ toString res.status ++ ": " ++
      ((((jsonOr res (.obj [])).get "error").bind (fun e => e.get "message")
          |>.bind Json.asString).getD res.statusText) }
  else resJson res .ret

/-- One traversal of the body of `spotifyFetch`; `retryK` is the
continuation standing for the recursive call `spotifyFetch(path, options,
false)` and is `none` when the `retry` flag is false. -/
def spotifyFetchGo (path : String) (options : FetchOptions)
    (retryK : Option (Proc Json)) : Proc Json :=
  getToken.bind fun token =>
  .http { method := options.method, url := SPOTIFY_BASE ++ path,
          params := options.params, bearer := some token,
          body := options.body } fun res =>
    match retryK with
    | some k =>
        if res.status == 401 then
          refreshToken.bind fun newToken =>
            match newToken with
            | some _ => k
            | none => .fail { message :=
                "Spotify token expired and refresh failed. Run: conductor plugins auth spotify" }
        else finishFetch res
    | none => finishFetch res

/-- `spotifyFetch` with an explicit retry budget (the source's boolean
`retry` flag: budget 1 is `retry = true`, budget 0 is `retry = false`). -/
def spotifyFetchAux (path : String) (options : FetchOptions) : Nat → Proc Json
  | 0 => spotifyFetchGo path options none
  | n + 1 => spotifyFetchGo path options (some (spotifyFetchAux path options n))

/-- Embedding of `SpotifyPlugin.spotifyFetch(path, options)` with the
default `retry = true`. -/
def spotifyFetch (path : String) (options : FetchOptions) : Proc Json :=
  spotifyFetchAux path options 1

end SpotifyPlugin

/-- Requests aimed at the Spotify token endpoint. -/
def isSpotifyTokenReq (r : HttpRequest) : Bool :=
  r.url == SPOTIFY_AUTH ++ "/api/token"

/-- Requests aimed at the Spotify Web API. -/
def isSpotifyApiReq (r : HttpRequest) : Bool :=
  SPOTIFY_BASE.data.isPrefixOf r.url.data

/-! ## JS string primitives used by the adapters

`encodeURIComponent` (ECMA-262), UTF-8 bytes of a string, and RFC 4648
base64 — the library routines the sources call (`encodeURIComponent`,
`Buffer.toString('base64')`, `crypto … digest('base64')`). -/

/-- JS `String.prototype.length`: the number of UTF-16 code units, so a
character above U+FFFF (a surrogate pair) counts twice. -/
def jsLength (s : String) : Nat :=
  s.data.foldr (fun c acc => (if c.toNat < 0x10000 then 1 else 2) + acc) 0

/-- The UTF-8 bytes of a single character, as `Nat`s below 256. -/
def utf8Bytes (c : Char) : List Nat :=
  let n := c.toNat
  if n < 0x80 then [n]
  else if n < 0x800 then [0xC0 + n / 0x40, 0x80 + n % 0x40]
  else if n < 0x10000 then
    [0xE0 + n / 0x1000, 0x80 + (n / 0x40) % 0x40, 0x80 + n % 0x40]
  else
    [0xF0 + n / 0x40000, 0x80 + (n / 0x1000) % 0x40,
     0x80 + (n / 0x40) % 0x40, 0x80 + n % 0x40]

/-- The UTF-8 bytes of a string. -/
def stringUtf8 (s : String) : List Nat :=
  s.data.foldr (fun c acc => utf8Bytes c ++ acc) []

/-- Upper-case hex digit for a value below 16. -/
def hexDigitUpper (n : Nat) : Char :=
  if n < 10 then Char.ofNat (48 + n) else Char.ofNat (55 + n)

/-- The characters ECMA-262 `encodeURIComponent` leaves unescaped:
letters, digits, and `- _ . ! ~ * ' ( )`. -/
def isUnescapedJS (c : Char) : Bool :=
  c.isAlphanum || c ∈ ['-', '_', '.', '!', '~', '*', Char.ofNat 39, '(', ')']

/-- ECMA-262 `encodeURIComponent`: percent-encode every UTF-8 byte of
every character outside the unescaped set, upper-case hex. -/
def encodeURIComponent (s : String) : String :=
  ⟨s.data.foldr (fun c acc =>
    (if isUnescapedJS c then [c]
     else (utf8Bytes c).foldr
       (fun b acc2 => '%' :: hexDigitUpper (b / 16) :: hexDigitUpper (b % 16) :: acc2) [])
    ++ acc) []⟩

/-- RFC 4648 base64 alphabet. -/
def base64Char (n : Nat) : Char :=
  if n < 26 then Char.ofNat (65 + n)
  else if n < 52 then Char.ofNat (97 + (n - 26))
  else if n < 62 then Char.ofNat (48 + (n - 52))
  else if n = 62 then '+' else '/'

/-- RFC 4648 base64 of a byte list, three bytes a chunk, `=`-padded. -/
def base64Chunks : List Nat → List Char
  | [] => []
  | [b1] => [base64Char (b1 / 4), base64Char (b1 % 4 * 16), '=', '=']
  | [b1, b2] => [base64Char (b1 / 4), base64Char (b1 % 4 * 16 + b2 / 16),
                 base64Char (b2 % 16 * 4), '=']
  | b1 :: b2 :: b3 :: rest =>
      base64Char (b1 / 4) :: base64Char (b1 % 4 * 16 + b2 / 16) ::
      base64Char (b2 % 16 * 4 + b3 / 64) :: base64Char (b3 % 64) :: base64Chunks rest

/-- Base64 of a byte list as a string. -/
def base64Encode (bytes : List Nat) : String := ⟨base64Chunks bytes⟩

/-! ## Gmail plugin (`plugins/gmail/src/index.ts`) -/

def GMAIL_BASE : String := "https://gmail.googleapis.com/gmail/v1/users/me"

namespace GmailPlugin

/-- Embedding of `GmailPlugin.getToken`: read the shared
`google/access_token` record.  The JS falsy test `if (!token)` throws
both when the record is absent and when it holds the empty string. -/
def getToken : Proc String :=
  .kcGet "google" "access_token" fun token =>
    match token with
    | some t =>
        if t ≠ "" then .ret t
        else .fail { message := "Google not authenticated. Run: conductor auth google" }
    | none => .fail { message := "Google not authenticated. Run: conductor auth google" }

/-- The response handling of `gmailFetch`: on non-ok read the body
text, map 401 to the re-authenticate error and other statuses to
`Gmail API <status>: <text>`; on ok parse the JSON body.  There is no
refresh attempt and no empty-body special case. -/
def gmailFinish (res : HttpResponse) : Proc Json :=
  if !res.ok then
    if res.status == 401 then
      .fail { message := "Google token expired. Re-authenticate: conductor auth google" }
    else
      .fail { message := "Gmail API " ++ toString res.status ++ ": " ++ res.bodyText }
  else resJson res .ret

/-- Embedding of `GmailPlugin.gmailFetch`: attach the bearer token and
dispatch on the response. -/
def gmailFetch (path : String) (options : FetchOptions) : Proc Json :=
  getToken.bind fun token =>
  .http { method := options.method, url := GMAIL_BASE ++ path,
          bearer := some token, body := options.body } fun res =>
    gmailFinish res

/-- Embedding of `GmailPlugin.encodeEmail`: assemble the RFC 2822 lines
(joined by CRLF, skipping falsy `cc`/`inReplyTo`), base64 the UTF-8
bytes, and apply the `+ → -`, `/ → _` URL-safe substitution. -/
def encodeEmail (toAddr subject body : String) (cc inReplyTo : Option String) : String :=
  let lines :=
    ["To: " ++ toAddr, "Subject: " ++ subject]
    ++ (match cc with | some c => if c ≠ "" then ["Cc: " ++ c] else [] | none => [])
    ++ (match inReplyTo with
        | some m => if m ≠ "" then ["In-Reply-To: " ++ m] else []
        | none => [])
    ++ ["Content-Type: text/plain; charset=UTF-8", "", body]
  let joined := String.intercalate "\r\n" lines
  ⟨(base64Chunks (stringUtf8 joined)).map
    (fun c => if c = '+' then '-' else if c = '/' then '_' else c)⟩

/-- Embedding of the `gmail_send` tool handler: encode the email and
POST it to `/messages/send`. -/
def gmail_send_handler (toAddr subject body : String) (cc : Option String) : Proc Json :=
  let raw := encodeEmail toAddr subject body cc none
  (gmailFetch "/messages/send"
      { method := "POST", body := some (.obj [("raw", .str raw)]) }).bind fun result =>
    .ret (.obj [("sent", .bool true),
                ("messageId", (result.get "id").getD .null),
                ("threadId", (result.get "threadId").getD .null)])

end GmailPlugin

/-! ## Google Calendar plugin (`plugins/gcal/src/index.ts`) -/

def CAL_BASE : String := "https://www.googleapis.com/calendar/v3"

namespace GoogleCalendarPlugin

/-- Embedding of `GoogleCalendarPlugin.getToken`: the same shared
`google/access_token` record the Gmail plugin reads, with the same falsy
test rejecting an absent record or a stored empty string. -/
def getToken : Proc String :=
  .kcGet "google" "access_token" fun token =>
    match token with
    | some t =>
        if t ≠ "" then .ret t
        else .fail { message := "Google not authenticated. Run: conductor auth google" }
    | none => .fail { message := "Google not authenticated. Run: conductor auth google" }

/-- The response handling of `calFetch`: non-ok statuses throw (401
mapped to the re-authenticate error), 204 yields the empty object,
otherwise the JSON body is parsed. -/
def calFinish (res : HttpResponse) : Proc Json :=
  if !res.ok then
    if res.status == 401 then
      .fail { message := "Google token expired. Re-authenticate: conductor auth google" }
    else
      .fail { message := "Google Calendar API " ++ toString res.status ++ ": " ++ res.bodyText }
  else if res.status == 204 then .ret (.obj [])
  else resJson res .ret

/-- Embedding of `GoogleCalendarPlugin.calFetch`: bearer auth, then
dispatch on the response. -/
def calFetch (path : String) (options : FetchOptions) : Proc Json :=
  getToken.bind fun token =>
  .http { method := options.method, url := CAL_BASE ++ path,
          bearer := some token, body := options.body } fun res =>
    calFinish res

/-- Embedding of the `gcal_delete_event` tool handler: DELETE the event
resource. -/
def gcal_delete_event_handler (eventId calendarId : String) : Proc Json :=
  (calFetch ("/calendars/" ++ encodeURIComponent calendarId ++ "/events/"
              ++ encodeURIComponent eventId)
      { method := "DELETE" }).bind fun _ =>
    .ret (.obj [("deleted", .bool true), ("eventId", .str eventId)])

end GoogleCalendarPlugin

/-! ## n8n plugin (`src/unnamed/part_005`, `N8nPlugin`) -/

namespace N8nPlugin

/-- The character-list core of the base-URL normalisation in
`N8nPlugin.getConfig`: `.replace(/\/$/, '')` strips one trailing slash. -/
def stripTrailingSlash (s : List Char) : List Char :=
  if s.getLast? = some '/' then s.dropLast else s

/-- The `/api/v1` suffix the normalisation guarantees. -/
def apiSuffix : List Char := "/api/v1".data

/-- Embedding (on character lists) of the normalisation in
`N8nPlugin.getConfig`: strip one trailing slash, then append `/api/v1`
unless the URL already ends with it. -/
def normalizeChars (raw : List Char) : List Char :=
  let b := stripTrailingSlash raw
  if apiSuffix.isSuffixOf b then b else b ++ apiSuffix

/-- Embedding of the base-URL computation of `N8nPlugin.getConfig`,
including the `http://localhost:5678` default for an absent record. -/
def normalizeBaseUrl (rawUrl : Option String) : String :=
  ⟨normalizeChars (rawUrl.getD "http://localhost:5678").data⟩

/-- Embedding of `N8nPlugin.getConfig`: require `n8n/api_key` (the JS
falsy test also rejects a stored empty string), read `n8n/base_url`, and
normalise it. -/
def getConfig : Proc (String × String) :=
  .kcGet "n8n" "api_key" fun apiKey =>
    match apiKey with
    | some key =>
        if key ≠ "" then
          .kcGet "n8n" "base_url" fun rawUrl => .ret (key, normalizeBaseUrl rawUrl)
        else .fail { message :=
          "n8n API key not configured.\nGet one from your n8n instance: Settings → API → Create Key\nThen run: conductor plugins config n8n api_key <KEY>" }
    | none => .fail { message :=
        "n8n API key not configured.\nGet one from your n8n instance: Settings → API → Create Key\nThen run: conductor plugins config n8n api_key <KEY>" }

/-- The response handling of `n8nFetch`: 204 yields the empty object,
other non-ok statuses throw `n8n API <status>: <message>`, ok responses
parse (202 with an empty body therefore rejects). -/
def n8nFinish (res : HttpResponse) : Proc Json :=
  if res.status == 204 then .ret (.obj [])
  else if !res.ok then
    .fail { message := "n8n API " ++ toString res.status ++ ": " ++
      ((((jsonOr res (.obj [("message", .str res.statusText)])).get "message").bind
          Json.asString).getD res.statusText) }
  else resJson res .ret

/-- Embedding of `N8nPlugin.n8nFetch`: API-key header, then dispatch on
the response. -/
def n8nFetch (path : String) (options : FetchOptions) : Proc Json :=
  getConfig.bind fun cfg =>
  .http { method := options.method, url := cfg.2 ++ path, params := options.params,
          apiKeyHeader := some cfg.1, body := options.body } fun res =>
    n8nFinish res

/-- Embedding of the `n8n_delete_execution` tool handler: DELETE the
execution resource. -/
def n8n_delete_execution_handler (executionId : String) : Proc Json :=
  (n8nFetch ("/executions/" ++ executionId) { method := "DELETE" }).bind fun _ =>
    .ret (.obj [("deleted", .bool true), ("executionId", .str executionId)])

end N8nPlugin

/-! ## Tool definitions (the approval-relevant slice)

`requiresApproval?: bool` is an optional field of `ToolDefinition`
(default `false`); we record it as written in each `getTools()` list. -/

/-- The approval-relevant slice of a `ToolDefinition`. -/
structure ToolDef where
  name : String
  requiresApproval : Option Bool := none

/-- The effective approval flag: the optional field with its `false`
default. -/
def ToolDef.approvalRequired (t : ToolDef) : Bool :=
  t.requiresApproval.getD false

/-- The `gmail_send` entry of `GmailPlugin.getTools()`: no
`requiresApproval` field is written. -/
def gmail_send_def : ToolDef := { name := "gmail_send" }

/-- The `gcal_delete_event` entry of `GoogleCalendarPlugin.getTools()`:
no `requiresApproval` field is written. -/
def gcal_delete_event_def : ToolDef := { name := "gcal_delete_event" }

/-- The `n8n_delete_execution` entry of `N8nPlugin.getTools()`: no
`requiresApproval` field is written. -/
def n8n_delete_execution_def : ToolDef := { name := "n8n_delete_execution" }

/-- The `x_post_tweet` entry of `XPlugin.getTools()`, which does write
`requiresApproval: true`. -/
def x_post_tweet_def : ToolDef := { name := "x_post_tweet", requiresApproval := some true }

/-! ## SHA-1 / HMAC-SHA1 (RFC 3174, RFC 2104)

The primitives behind `crypto.createHmac('sha1', key)` in the X plugin,
on byte lists with 32-bit words as `Nat` reduced mod `2^32`. -/

/-- Big-endian byte expansion of `n` to `k` bytes. -/
def bytesBE : Nat → Nat → List Nat
  | 0, _ => []
  | k + 1, n => bytesBE k (n / 256) ++ [n % 256]

/-- Left-rotate a 32-bit word by `k` bits. -/
def rotl32 (k n : Nat) : Nat :=
  (n * 2 ^ k) % 2 ^ 32 + n / 2 ^ (32 - k)

/-- Pack a byte list into big-endian 32-bit words. -/
def toWords32 : List Nat → List Nat
  | b0 :: b1 :: b2 :: b3 :: rest =>
      (((b0 * 256 + b1) * 256 + b2) * 256 + b3) :: toWords32 rest
  | _ => []

/-- Intermediate SHA-1 state. -/
structure Sha1State where
  a : Nat
  b : Nat
  c : Nat
  d : Nat
  e : Nat

/-- Append the next expanded message-schedule word. -/
def sha1ScheduleStep (w : List Nat) : List Nat :=
  let n := w.length
  w ++ [rotl32 1 ((w.getD (n - 3) 0) ^^^ (w.getD (n - 8) 0) ^^^
                  (w.getD (n - 14) 0) ^^^ (w.getD (n - 16) 0))]

/-- Apply `sha1ScheduleStep` `k` times. -/
def sha1Schedule : Nat → List Nat → List Nat
  | 0, w => w
  | k + 1, w => sha1Schedule k (sha1ScheduleStep w)

/-- One SHA-1 compression round. -/
def sha1Round (i wi : Nat) (st : Sha1State) : Sha1State :=
  let f :=
    if i < 20 then (st.b &&& st.c) ||| ((st.b ^^^ 0xFFFFFFFF) &&& st.d)
    else if i < 40 then st.b ^^^ st.c ^^^ st.d
    else if i < 60 then (st.b &&& st.c) ||| (st.b &&& st.d) ||| (st.c &&& st.d)
    else st.b ^^^ st.c ^^^ st.d
  let kc :=
    if i < 20 then 0x5A827999
    else if i < 40 then 0x6ED9EBA1
    else if i < 60 then 0x8F1BBCDC
    else 0xCA62C1D6
  { a := (rotl32 5 st.a + f + st.e + kc + wi) % 2 ^ 32,
    b := st.a, c := rotl32 30 st.b, d := st.c, e := st.d }

/-- Compress one 64-byte block into the running state. -/
def sha1Block (w16 : List Nat) (h : Sha1State) : Sha1State :=
  let w := sha1Schedule 64 w16
  let st := (List.range 80).foldl (fun st i => sha1Round i (w.getD i 0) st) h
  { a := (h.a + st.a) % 2 ^ 32, b := (h.b + st.b) % 2 ^ 32,
    c := (h.c + st.c) % 2 ^ 32, d := (h.d + st.d) % 2 ^ 32,
    e := (h.e + st.e) % 2 ^ 32 }

/-- Fold `n` 64-byte blocks of `bytes` into the state. -/
def sha1Blocks : Nat → List Nat → Sha1State → Sha1State
  | 0, _, h => h
  | n + 1, bytes, h => sha1Blocks n (bytes.drop 64) (sha1Block (toWords32 (bytes.take 64)) h)

/-- SHA-1 of a byte list, as 20 bytes. -/
def sha1 (msg : List Nat) : List Nat :=
  let padZeros := (120 - (msg.length + 1) % 64) % 64
  let padded := msg ++ [0x80] ++ List.replicate padZeros 0 ++ bytesBE 8 (8 * msg.length)
  let h := sha1Blocks (padded.length / 64)
    padded
    { a := 0x67452301, b := 0xEFCDAB89, c := 0x98BADCFE, d := 0x10325476, e := 0xC3D2E1F0 }
  bytesBE 4 h.a ++ bytesBE 4 h.b ++ bytesBE 4 h.c ++ bytesBE 4 h.d ++ bytesBE 4 h.e

/-- HMAC-SHA1 (RFC 2104) over byte lists, 64-byte block size. -/
def hmacSha1 (key msg : List Nat) : List Nat :=
  let k0 := if 64 < key.length then sha1 key else key
  let k1 := k0 ++ List.replicate (64 - k0.length) 0
  sha1 ((k1.map (fun b => b ^^^ 0x5C)) ++ sha1 ((k1.map (fun b => b ^^^ 0x36)) ++ msg))

/-! ## X (Twitter) plugin (`plugins/x/src/index.ts`) -/

def X_BASE : String := "https://api.twitter.com/2"

/-- The OAuth 1.0a credential quadruple of the X plugin. -/
structure XCreds where
  apiKey : String
  apiSecret : String
  accessToken : String
  accessSecret : String

/-- Lexicographic code-unit comparison, the order JS `Array.sort()` uses
on strings. -/
def strLe : List Char → List Char → Bool
  | [], _ => true
  | _ :: _, [] => false
  | c :: cs, d :: ds =>
      if c.toNat < d.toNat then true
      else if d.toNat < c.toNat then false
      else strLe cs ds

/-- Insertion of a string into a sorted list (for `Object.keys(...).sort()`). -/
def insertSorted (x : String) : List String → List String
  | [] => [x]
  | y :: ys => if strLe x.data y.data then x :: y :: ys else y :: insertSorted x ys

/-- Lexicographic sort of strings, the embedding of JS `Array.sort()` on
the ASCII OAuth parameter names. -/
def sortStrings : List String → List String
  | [] => []
  | x :: xs => insertSorted x (sortStrings xs)

namespace XPlugin

/-- The `oauthParams` record assembled in `XPlugin.buildOAuthHeader`
(nonce and timestamp are drawn from `crypto.randomBytes` and `Date.now()`
in the source; the embedding takes them as inputs). -/
def oauthParams (creds : XCreds) (nonce timestamp : String) : List (String × String) :=
  [("oauth_consumer_key", creds.apiKey),
   ("oauth_nonce", nonce),
   ("oauth_signature_method", "HMAC-SHA1"),
   ("oauth_timestamp", timestamp),
   ("oauth_token", creds.accessToken),
   ("oauth_version", "1.0")]

/-- The sorted, percent-encoded `k=v` parameter string joined with `&`. -/
def sortedParamString (params : List (String × String)) : String :=
  String.intercalate "&"
    ((sortStrings (params.map Prod.fst)).map
      (fun k => encodeURIComponent k ++ "=" ++ encodeURIComponent ((params.lookup k).getD "")))

/-- JS `String.prototype.toUpperCase()` on the ASCII method names. -/
def toUpperJS (s : String) : String := ⟨s.data.map Char.toUpper⟩

/-- The signature base string `UPPER(method) & PERCENT(url) &
PERCENT(sorted_params)` of `XPlugin.buildOAuthHeader`. -/
def signatureBaseString (method url : String) (params : List (String × String)) : String :=
  toUpperJS method ++ "&" ++ encodeURIComponent url ++ "&"
    ++ encodeURIComponent (sortedParamString params)

/-- The `oauth_signature` computed by `XPlugin.buildOAuthHeader`:
`BASE64(HMAC_SHA1(PERCENT(apiSecret) & PERCENT(accessSecret), base))`. -/
def buildOAuthSignature (method url : String) (creds : XCreds)
    (nonce timestamp : String) : String :=
  let baseString := signatureBaseString method url (oauthParams creds nonce timestamp)
  let signingKey := encodeURIComponent creds.apiSecret ++ "&" ++ encodeURIComponent creds.accessSecret
  base64Encode (hmacSha1 (stringUtf8 signingKey) (stringUtf8 baseString))

/-- The full `Authorization: OAuth …` header value assembled by
`XPlugin.buildOAuthHeader`, each component percent-encoded and quoted,
with `oauth_signature` appended after the six base parameters. -/
def buildOAuthHeader (method url : String) (creds : XCreds)
    (nonce timestamp : String) : String :=
  let ps := oauthParams creds nonce timestamp
            ++ [("oauth_signature", buildOAuthSignature method url creds nonce timestamp)]
  "OAuth " ++ String.intercalate ", "
    (ps.map (fun p => encodeURIComponent p.1 ++ "=\"" ++ encodeURIComponent p.2 ++ "\""))

/-- Embedding of `XPlugin.getOAuthCreds`: all four `x/…` records must be
present (and non-empty, the JS truthiness test) or the helper throws. -/
def getOAuthCreds : Proc XCreds :=
  .kcGet "x" "api_key" fun k1 =>
  .kcGet "x" "api_secret" fun k2 =>
  .kcGet "x" "access_token" fun k3 =>
  .kcGet "x" "access_secret" fun k4 =>
    match k1, k2, k3, k4 with
    | some a, some b, some c, some d =>
        if a ≠ "" ∧ b ≠ "" ∧ c ≠ "" ∧ d ≠ "" then
          .ret { apiKey := a, apiSecret := b, accessToken := c, accessSecret := d }
        else .fail { message := "X write credentials not fully configured." }
    | _, _, _, _ => .fail { message := "X write credentials not fully configured." }

/-- The error string assembled in the X fetch helpers:
`errJSON.detail ?? errJSON.title ?? res.statusText`, with the parse
failure swallowed by the surrounding `try`. -/
def xErrStr (res : HttpResponse) : String :=
  match res.body with
  | some j =>
      (((j.get "detail").bind Json.asString) <|>
       ((j.get "title").bind Json.asString)).getD res.statusText
  | none => res.statusText

end XPlugin

/-- An error counts as transient when it carries a 5xx status. -/
def transientErr (e : JsError) : Bool :=
  match e.status with
  | some s => decide (500 ≤ s)
  | none => false

/-- Retry loop with an explicit budget of re-attempts. -/
def withRetryAux : Nat → Proc α → Proc α
  | 0, op => op
  | n + 1, op => op.catchE fun e => if transientErr e then withRetryAux n op else .fail e

/-- Modelled from the spec: `withRetry` from `@conductor-plugins/shared`
(the package is outside the repository sources).  Per §4.5 of the spec,
5xx/network failures are transient and "retryable via optional
`withRetry` wrapper with exponential backoff (caps at implementer's
choice)"; the model re-attempts the wrapped operation up to twice more
on a transient error. -/
def withRetry (op : Proc α) : Proc α := withRetryAux 2 op

namespace XPlugin

/-- Embedding of `XPlugin.xPost`: build the OAuth header once, then run
the signed POST inside `withRetry`; non-ok responses throw an error
carrying the status. -/
def xPost (path : String) (body : Json) (nonce timestamp : String) : Proc Json :=
  getOAuthCreds.bind fun creds =>
    let url := X_BASE ++ path
    let authHeader := buildOAuthHeader "POST" url creds nonce timestamp
    withRetry (
      .http { method := "POST", url := url, oauthHeader := some authHeader,
              body := some body } fun res =>
        if !res.ok then
          .fail { message := "X API " ++ toString res.status ++ ": " ++ xErrStr res,
                  status := some res.status }
        else resJson res .ret)

/-- Embedding of the `x_post_tweet` tool handler: reject texts whose JS
`text.length` (UTF-16 code units, `jsLength`) exceeds 280 with an
`{error: …}` payload before any network traffic, otherwise POST
`/tweets` through `xPost`.  The `url` field interpolates `res.data?.id`,
stringifying a missing id as `undefined`. -/
def x_post_tweet_handler (text : String) (replyToId : Option String)
    (nonce timestamp : String) : Proc Json :=
  if 280 < jsLength text then
    .ret (.obj [("error", .str ("Tweet too long: " ++ toString (jsLength text) ++ " chars (max 280)."))])
  else
    let body := Json.obj
      ([("text", .str text)] ++
        (match replyToId with
         | some r => if r ≠ "" then [("reply", .obj [("in_reply_to_tweet_id", .str r)])] else []
         | none => []))
    (xPost "/tweets" body nonce timestamp).bind fun res =>
      .ret (.obj
        [("posted", .bool true),
         ("id", ((res.get "data").bind (fun d => d.get "id")).getD .null),
         ("text", ((res.get "data").bind (fun d => d.get "text")).getD .null),
         ("url", .str ("https://x.com/i/web/status/"
           ++ ((((res.get "data").bind (fun d => d.get "id")).bind
                  Json.asString).getD "undefined")))])

end XPlugin

/-! ## Execution observers and concrete scenarios -/

/-- The requests of an event log, in order. -/
def reqsIn (events : List Event) : List HttpRequest :=
  events.filterMap (fun e => match e with | .httpReq r => some r | _ => none)

/-- Index of the n-th (0-based) event satisfying `p`. -/
def idxOfNth (p : Event → Bool) : Nat → List Event → Option Nat
  | _, [] => none
  | n, e :: es =>
      if p e then
        match n with
        | 0 => some 0
        | m + 1 => (idxOfNth p m es).map (· + 1)
      else (idxOfNth p n es).map (· + 1)

/-- Recognise the keychain write of a given access token value. -/
def isSetSpotifyAccess (v : String) (e : Event) : Bool :=
  match e with
  | .kcSet "spotify" "access_token" v' => v' == v
  | _ => false

/-- Recognise a Spotify Web API request event. -/
def isSpotifyApiEvent (e : Event) : Bool :=
  match e with
  | .httpReq r => isSpotifyApiReq r
  | _ => false

/-- An oracle answering the n-th request from a fixed list, with a
default for later requests. -/
def oracleOf (rs : List HttpResponse) (dflt : HttpResponse) : Nat → HttpResponse :=
  fun n => (rs.get? n).getD dflt

/-- A 401 response. -/
def r401 : HttpResponse := { status := 401 }

/-- A 200 token-endpoint response carrying an access token. -/
def rOkTok (t : String) : HttpResponse :=
  { status := 200, body := some (.obj [("access_token", .str t)]) }

/-- A 200 response with an empty JSON object body. -/
def rOkEmpty : HttpResponse := { status := 200, body := some (.obj []) }

/-- A 204 response with an empty body. -/
def r204 : HttpResponse := { status := 204 }

/-- A 202 response with an empty body. -/
def r202 : HttpResponse := { status := 202 }

/-- A 500 response with an empty body. -/
def r500 : HttpResponse := { status := 500 }

/-- A 200 response shaped like the X `POST /tweets` success payload. -/
def rOkTweet : HttpResponse :=
  { status := 200,
    body := some (.obj [("data", .obj [("id", .str "1"), ("text", .str "hi")])]) }

/-- A Spotify keychain holding the three records the plugin uses. -/
def spotifyKc (a r c : String) : Keychain :=
  [(("spotify", "access_token"), a),
   (("spotify", "refresh_token"), r),
   (("spotify", "client_id"), c)]

/-- A Google keychain holding access and refresh tokens under the shared
`google` service namespace. -/
def googleKc : Keychain :=
  [(("google", "access_token"), "A"), (("google", "refresh_token"), "R")]

/-- An n8n keychain holding an API key and a base URL. -/
def n8nKc (u : String) : Keychain :=
  [(("n8n", "api_key"), "K"), (("n8n", "base_url"), u)]

/-- An X keychain holding the four OAuth 1.0a write credentials. -/
def xKc : Keychain :=
  [(("x", "api_key"), "ck"), (("x", "api_secret"), "cs"),
   (("x", "access_token"), "tk"), (("x", "access_secret"), "ts")]

/-- The client credentials of the RFC 5849 example. -/
def rfc5849Creds : XCreds :=
  { apiKey := "9djdj82h48djs9d2", apiSecret := "j49sk3j29djd",
    accessToken := "kkk9d7dh3k39sjv7", accessSecret := "dh893hdasih9" }

/-- The signature base string the embedded signer produces at the claim
C4 inputs. -/
def oauthBaseLit : String :=
  "POST&https%3A%2F%2Fapi.example.com%2F1%2Fr&oauth_consumer_key%3D9djdj82h48djs9d2%26oauth_nonce%3Dkllo9940pd9333jh%26oauth_signature_method%3DHMAC-SHA1%26oauth_timestamp%3D1318622958%26oauth_token%3Dkkk9d7dh3k39sjv7%26oauth_version%3D1.0"

/-- The alternating two-caller schedule used for the concurrency
scenario: both calls read the stale token and observe 401 before either
refresh begins, then each runs its own refresh and retry to completion. -/
def bothObserve401Schedule : List Nat :=
  [0, 1, 0, 1, 0, 0, 0, 1, 1, 1, 0, 0, 0, 0, 1, 1, 1, 1]

/-- The n-th (0-based) request matching a filter, in log order. -/
def nthReqMatching (p : HttpRequest → Bool) : Nat → List Event → Option HttpRequest
  | n, .httpReq r :: es =>
      if p r then
        match n with
        | 0 => some r
        | m + 1 => nthReqMatching p m es
      else nthReqMatching p n es
  | n, .kcSet _ _ _ :: es => nthReqMatching p n es
  | _, [] => none

/-- Whether the keychain write of access-token value `b` occurs strictly
before the second Spotify Web API request of the log. -/
def setBeforeSecondApi (b : String) (evs : List Event) : Bool :=
  match idxOfNth (isSetSpotifyAccess b) 0 evs, idxOfNth isSpotifyApiEvent 1 evs with
  | some i, some j => decide (i < j)
  | _, _ => false

/-- The credential quadruple stored in `xKc`. -/
def xCredsVal : XCreds :=
  { apiKey := "ck", apiSecret := "cs", accessToken := "tk", accessSecret := "ts" }

/-- Recognise the X `POST /tweets` request. -/
def isTweetPost (r : HttpRequest) : Bool :=
  r.method == "POST" && r.url == X_BASE ++ "/tweets"

/-! ## Helper lemmas -/

/-- Sequential runs compose: running `p.bind f` runs `p`, then `f` on
its result (errors short-circuit). -/
theorem runProc_bind (p : Proc α) (f : α → Proc β) (w : World) :
    runProc (p.bind f) w =
      match runProc p w with
      | (.ok a, w') => runProc (f a) w'
      | (.error e, w') => (.error e, w') := by
  induction p generalizing w with
  | ret a => rfl
  | fail e => rfl
  | kcGet s k g ih => simp only [Proc.bind, runProc, ih]
  | kcSet s k v g ih => simp only [Proc.bind, runProc, ih]
  | http r g ih => simp only [Proc.bind, runProc, ih]

/-- The event log only grows: a run appends to the incoming log. -/
theorem runProc_events_prefix (p : Proc α) (w : World) :
    ∃ l, (runProc p w).2.events = w.events ++ l := by
  induction p generalizing w with
  | ret a => exact ⟨[], by simp [runProc]⟩
  | fail e => exact ⟨[], by simp [runProc]⟩
  | kcGet s k g ih => simpa [runProc] using ih (w.kc.get s k) w
  | kcSet s k v g ih =>
      obtain ⟨l, hl⟩ := ih ()
        { w with kc := w.kc.set s k v, events := w.events ++ [.kcSet s k v] }
      exact ⟨.kcSet s k v :: l, by simp [runProc, hl]⟩
  | http r g ih =>
      obtain ⟨l, hl⟩ := ih (w.oracle w.reqCount)
        { w with reqCount := w.reqCount + 1, events := w.events ++ [.httpReq r] }
      exact ⟨.httpReq r :: l, by simp [runProc, hl]⟩

/-- Looking a pair up after setting it yields the new value. -/
theorem Keychain.get_set_self (kc : Keychain) (s k v : String) :
    (kc.set s k v).get s k = some v := by
  simp [Keychain.get, Keychain.set, List.lookup]

/-- Lookup is unaffected by filtering out a different key. -/
theorem lookup_filter_ne (l : List ((String × String) × String))
    {a b : String × String} (h : a ≠ b) :
    List.lookup a (l.filter (fun e => !(decide (e.1 = b) : Bool))) = List.lookup a l := by
  induction l with
  | nil => rfl
  | cons e es ih =>
      by_cases hb : e.1 = b
      · have ha : (a == b) = false := by simp [h]
        simp [List.filter, hb, List.lookup, ha, ih]
      · by_cases hae : a = e.1
        · simp [List.filter, hb, List.lookup, hae]
        · have ha : (a == e.1) = false := by simp [hae]
          simp [List.filter, hb, List.lookup, ha, ih]

/-- Looking a pair up after setting a different pair is unchanged. -/
theorem Keychain.get_set_ne (kc : Keychain) {s k s' k' : String} (v : String)
    (h : (s, k) ≠ (s', k')) : (kc.set s' k' v).get s k = kc.get s k := by
  have hb : ((s, k) == (s', k')) = false := by simp [beq_iff_eq, h]
  simp only [Keychain.get, Keychain.set, List.lookup, hb]
  exact lookup_filter_ne kc h

/-! ## Claim C1 -/

/-- Claim C1 (code bug in the source): the spec and the repository's own
authoring guide require `requiresApproval: true` on every mutating tool,
but the `gmail_send`, `gcal_delete_event` and `n8n_delete_execution`
tool definitions write no `requiresApproval` field at all (so it
defaults to `false`), even though their handlers do issue mutating HTTP
requests — shown here by running each handler and counting the POST /
DELETE requests it sends. -/
theorem c1_mutating_tools_lack_approval :
    gmail_send_def.requiresApproval = none
  ∧ gmail_send_def.approvalRequired = false
  ∧ gcal_delete_event_def.requiresApproval = none
  ∧ gcal_delete_event_def.approvalRequired = false
  ∧ n8n_delete_execution_def.requiresApproval = none
  ∧ n8n_delete_execution_def.approvalRequired = false
  ∧ countReqs (fun r => r.method == "POST" && r.url == GMAIL_BASE ++ "/messages/send")
      (runProc (GmailPlugin.gmail_send_handler "a@b.c" "subj" "hello" none)
        { kc := googleKc,
          oracle := oracleOf
            [{ status := 200,
               body := some (.obj [("id", .str "m1"), ("threadId", .str "t1")]) }]
            rOkEmpty }).2.events = 1
  ∧ countReqs (fun r => r.method == "DELETE")
      (runProc (GoogleCalendarPlugin.gcal_delete_event_handler "e1" "primary")
        { kc := googleKc, oracle := oracleOf [r204] rOkEmpty }).2.events = 1
  ∧ countReqs (fun r => r.method == "DELETE")
      (runProc (N8nPlugin.n8n_delete_execution_handler "ex1")
        { kc := n8nKc "https://n8n.example.com",
          oracle := oracleOf [r204] rOkEmpty }).2.events = 1 := by
  refine ⟨rfl, rfl, rfl, rfl, rfl, rfl, ?_, ?_, ?_⟩ <;> decide

/-! ## Claim C7 -/

/-- Claim C7, counterexample: the claim quantifies over every value
`v`, but at `v = ""` the JS falsy check `if (!token)` in both plugins'
`getToken` throws `Google not authenticated` instead of returning the
value, even though the shared record was just written. -/
theorem c7_google_token_shared_counterexample :
    (runProc GmailPlugin.getToken
        { kc := Keychain.set [] "google" "access_token" "",
          oracle := fun _ => rOkEmpty }).1
      = .error { message := "Google not authenticated. Run: conductor auth google" }
  ∧ (runProc GoogleCalendarPlugin.getToken
        { kc := Keychain.set [] "google" "access_token" "",
          oracle := fun _ => rOkEmpty }).1
      = .error { message := "Google not authenticated. Run: conductor auth google" } :=
  ⟨rfl, rfl⟩

/-- Claim C7, amended (corrected): for every NON-EMPTY value `v`, after
either plugin's store performs `set("google", "access_token", v)`, both
the Gmail and the Calendar plugin's `getToken()` resolve with `v` — the
two read the same `("google", "access_token")` record.  At `v = ""` the
falsy credential check throws instead (see the counterexample).  (The
Secret Store semantics — stores bound to one `config_dir` observe the
same records — is modelled from the spec; the two `getToken` readers are
embedded from the sources.) -/
theorem c7_google_token_shared (kc : Keychain) (v : String) (o : Nat → HttpResponse)
    (hv : v ≠ "") :
    (runProc GmailPlugin.getToken
        { kc := kc.set "google" "access_token" v, oracle := o }).1 = .ok v
  ∧ (runProc GoogleCalendarPlugin.getToken
        { kc := kc.set "google" "access_token" v, oracle := o }).1 = .ok v := by
  constructor <;>
    simp [GmailPlugin.getToken, GoogleCalendarPlugin.getToken, runProc,
          Keychain.get_set_self kc, hv]

/-- Concrete instantiation of the amended C7 theorem at `v = "T"`. -/
theorem c7_google_token_shared_witness :
    (runProc GmailPlugin.getToken
        { kc := Keychain.set [] "google" "access_token" "T",
          oracle := fun _ => rOkEmpty }).1 = .ok "T"
  ∧ (runProc GoogleCalendarPlugin.getToken
        { kc := Keychain.set [] "google" "access_token" "T",
          oracle := fun _ => rOkEmpty }).1 = .ok "T" :=
  c7_google_token_shared [] "T" (fun _ => rOkEmpty) (by decide)


/-! ## Claim C9 -/

/-- A run of a program that begins with an HTTP action records that
request as the first event (starting from an empty log). -/
theorem runProc_http_first {α : Type} (req : HttpRequest) (k : HttpResponse → Proc α)
    (w : World) (hw : w.events = []) :
    ∃ l, (runProc (.http req k) w).2.events = .httpReq req :: l := by
  simp only [runProc]
  obtain ⟨l, hl⟩ := runProc_events_prefix (k (w.oracle w.reqCount))
    { w with reqCount := w.reqCount + 1, events := w.events ++ [.httpReq req] }
  refine ⟨l, ?_⟩
  rw [hl]
  simp [hw]

/-- A single request satisfying the filter makes the count positive. -/
theorem one_le_countReqs (p : HttpRequest → Bool) (r : HttpRequest) (l : List Event)
    (h : p r = true) : 1 ≤ countReqs p (.httpReq r :: l) := by
  simp [countReqs, List.countP_cons, h]

/-- Whatever the network answers, `xPost` with the `xKc` credentials
emits its signed POST as the first request of the execution. -/
theorem xPost_first_request (path : String) (body : Json) (nonce timestamp : String)
    (o : Nat → HttpResponse) :
    ∃ req l, (runProc (XPlugin.xPost path body nonce timestamp)
        { kc := xKc, oracle := o }).2.events = .httpReq req :: l
      ∧ req.method = "POST" ∧ req.url = X_BASE ++ path := by
  unfold XPlugin.xPost
  rw [runProc_bind]
  have hcreds : runProc XPlugin.getOAuthCreds { kc := xKc, oracle := o }
      = (.ok xCredsVal, { kc := xKc, oracle := o }) := rfl
  rw [hcreds]
  simp only [withRetry, withRetryAux, Proc.catchE]
  obtain ⟨l, hl⟩ := runProc_http_first _ _ { kc := xKc, oracle := o } rfl
  exact ⟨_, l, hl, rfl, rfl⟩

/-- Claim C9 (confirmed): the `x_post_tweet` handler rejects texts
whose JS `text.length` — UTF-16 code units, embedded as `jsLength` —
exceeds 280 with an `{error: …}` payload and performs no HTTP request at
all; with a text of at most 280 code units (and the write credentials
configured) the POST to `/tweets` is issued. -/
theorem c9_tweet_length_gate (text : String) (replyToId : Option String)
    (nonce timestamp : String) (kc : Keychain) (o : Nat → HttpResponse) :
    (280 < jsLength text →
      (runProc (XPlugin.x_post_tweet_handler text replyToId nonce timestamp)
          { kc := kc, oracle := o }).1
        = .ok (.obj [("error",
            .str ("Tweet too long: " ++ toString (jsLength text) ++ " chars (max 280)."))])
      ∧ (runProc (XPlugin.x_post_tweet_handler text replyToId nonce timestamp)
          { kc := kc, oracle := o }).2.events = [])
  ∧ (jsLength text ≤ 280 →
      1 ≤ countReqs isTweetPost
        (runProc (XPlugin.x_post_tweet_handler text replyToId nonce timestamp)
          { kc := xKc, oracle := o }).2.events) := by
  constructor
  · intro h
    unfold XPlugin.x_post_tweet_handler
    rw [if_pos h]
    exact ⟨rfl, rfl⟩
  · intro h
    unfold XPlugin.x_post_tweet_handler
    rw [if_neg (by omega)]
    rw [runProc_bind]
    obtain ⟨req, l, hev, hm, hu⟩ := xPost_first_request "/tweets" _ nonce timestamp o
    rcases hrp : runProc (XPlugin.xPost "/tweets" _ nonce timestamp)
        { kc := xKc, oracle := o } with ⟨res, wX⟩
    rw [hrp] at hev
    simp only at hev
    have hp : isTweetPost req = true := by simp [isTweetPost, hm, hu]
    rcases res with e | a
    · rw [hev]
      exact one_le_countReqs _ req l hp
    · simp only [runProc]
      rw [hev]
      exact one_le_countReqs _ req l hp

set_option maxRecDepth 4000 in
/-- Concrete instantiation of the C9 theorem: a 281-character text is
rejected without network traffic, and a short text issues the POST. -/
theorem c9_tweet_length_gate_witness :
    ((runProc (XPlugin.x_post_tweet_handler ⟨List.replicate 281 'a'⟩ none "n" "1")
        { kc := xKc, oracle := oracleOf [rOkTweet] rOkTweet }).2.events = [])
  ∧ 1 ≤ countReqs isTweetPost
      (runProc (XPlugin.x_post_tweet_handler "hi" none "n" "1")
        { kc := xKc, oracle := oracleOf [rOkTweet] rOkTweet }).2.events :=
  ⟨((c9_tweet_length_gate ⟨List.replicate 281 'a'⟩ none "n" "1" xKc
      (oracleOf [rOkTweet] rOkTweet)).1 (by decide)).2,
   (c9_tweet_length_gate "hi" none "n" "1" xKc
      (oracleOf [rOkTweet] rOkTweet)).2 (by decide)⟩

/-! ## Claim C10 -/

/-- Every normalised n8n base URL ends with `/api/v1`. -/
theorem normalizeChars_suffix (raw : List Char) :
    N8nPlugin.apiSuffix.isSuffixOf (N8nPlugin.normalizeChars raw) = true := by
  unfold N8nPlugin.normalizeChars
  dsimp only
  split
  · assumption
  · simp [List.isSuffixOf]

/-- The last character of a normalised base URL is the `'1'` of
`/api/v1`. -/
theorem normalizeChars_getLast (raw : List Char) :
    (N8nPlugin.normalizeChars raw).getLast? = some '1' := by
  unfold N8nPlugin.normalizeChars
  dsimp only
  split
  · next h =>
      obtain ⟨t, ht⟩ := List.isSuffixOf_iff_suffix.mp h
      rw [← ht, List.getLast?_append_of_ne_nil _ (by decide)]
      decide
  · rw [List.getLast?_append_of_ne_nil _ (by decide)]
    decide

/-- Stripping a trailing slash does nothing to a normalised URL. -/
theorem strip_normalizeChars (raw : List Char) :
    N8nPlugin.stripTrailingSlash (N8nPlugin.normalizeChars raw)
      = N8nPlugin.normalizeChars raw := by
  unfold N8nPlugin.stripTrailingSlash
  rw [normalizeChars_getLast raw, if_neg (by decide)]

/-- The normalisation of `N8nPlugin.getConfig` is idempotent. -/
theorem normalizeChars_idem (raw : List Char) :
    N8nPlugin.normalizeChars (N8nPlugin.normalizeChars raw)
      = N8nPlugin.normalizeChars raw := by
  have h1 := strip_normalizeChars raw
  have h2 := normalizeChars_suffix raw
  generalize N8nPlugin.normalizeChars raw = r at h1 h2 ⊢
  unfold N8nPlugin.normalizeChars
  simp only [h1, if_pos h2]

/-- Claim C10, amended (corrected): every base URL computed by
`N8nPlugin.getConfig` ends with `/api/v1`, the normalisation is
idempotent, and every n8n API request targets `<normalised base><path>`
— but only a single trailing slash is stripped, so a slash can remain
immediately before the appended suffix (see the counterexample). -/
theorem c10_normalize_amended (raw : Option String) (path u : String)
    (o : Nat → HttpResponse) :
    N8nPlugin.apiSuffix.isSuffixOf (N8nPlugin.normalizeBaseUrl raw).data = true
  ∧ N8nPlugin.normalizeBaseUrl (some (N8nPlugin.normalizeBaseUrl raw))
      = N8nPlugin.normalizeBaseUrl raw
  ∧ ∃ req l, (runProc (N8nPlugin.n8nFetch path { method := "GET" })
        { kc := n8nKc u, oracle := o }).2.events = .httpReq req :: l
      ∧ req.url = N8nPlugin.normalizeBaseUrl (some u) ++ path := by
  refine ⟨normalizeChars_suffix _, congrArg String.mk (normalizeChars_idem _), ?_⟩
  unfold N8nPlugin.n8nFetch
  rw [runProc_bind]
  have hcfg : runProc N8nPlugin.getConfig { kc := n8nKc u, oracle := o }
      = (.ok ("K", N8nPlugin.normalizeBaseUrl (some u)), { kc := n8nKc u, oracle := o }) := rfl
  rw [hcfg]
  obtain ⟨l, hl⟩ := runProc_http_first _ _ { kc := n8nKc u, oracle := o } rfl
  exact ⟨_, l, hl, rfl⟩

/-- Claim C10, counterexample: the claim as stated requires "no trailing
slash before that suffix", but for the stored value `http://h//` the code
strips only one slash and produces `http://h//api/v1`, whose stem still
ends with a slash. -/
theorem c10_normalize_counterexample :
    N8nPlugin.normalizeBaseUrl (some "http://h//") = "http://h//api/v1"
  ∧ (((N8nPlugin.normalizeBaseUrl (some "http://h//")).data.take
        ((N8nPlugin.normalizeBaseUrl (some "http://h//")).data.length - 7)).getLast?
      = some '/') := by
  constructor <;> decide

/-! ## Claim C4 -/

set_option maxRecDepth 1000000 in
/-- The base string the embedded signer produces at the claim C4 inputs
(`POST`, `https://api.example.com/1/r`, nonce `kllo9940pd9333jh`,
timestamp `1318622958`, RFC 5849 example credentials). -/
theorem oauth_base_string_eq :
    XPlugin.signatureBaseString "POST" "https://api.example.com/1/r"
      (XPlugin.oauthParams rfc5849Creds "kllo9940pd9333jh" "1318622958")
      = oauthBaseLit := by
  decide

set_option maxRecDepth 1000000 in
/-- The signing key the embedded signer produces at the claim C4 inputs. -/
theorem oauth_signing_key_eq :
    encodeURIComponent rfc5849Creds.apiSecret ++ "&"
      ++ encodeURIComponent rfc5849Creds.accessSecret
      = "j49sk3j29djd&dh893hdasih9" := by
  decide

set_option maxRecDepth 1000000 in
/-- The base64 HMAC-SHA1 of that signing key and base string. -/
theorem oauth_hmac_eq :
    base64Encode (hmacSha1 (stringUtf8 "j49sk3j29djd&dh893hdasih9")
        (stringUtf8 oauthBaseLit))
      = "pkd/wx+tAVRWKAwzDR4i+hz1itg=" := by
  decide

/-- Claim C4, amended (corrected): at the claim's fixed inputs the
signer — whose base string is `UPPER(method) & PERCENT(url) &
PERCENT(sorted params)` and whose key is `PERCENT(consumer_secret) &
PERCENT(token_secret)`, exactly as the claim describes — produces
`pkd/wx+tAVRWKAwzDR4i+hz1itg=`, not the RFC-example value quoted by the
claim (the quoted value belongs to a signature over a different URL and
a parameter set including body parameters, which this signer omits). -/
theorem c4_oauth_signature_amended :
    XPlugin.buildOAuthSignature "POST" "https://api.example.com/1/r" rfc5849Creds
      "kllo9940pd9333jh" "1318622958" = "pkd/wx+tAVRWKAwzDR4i+hz1itg="
  ∧ XPlugin.signatureBaseString "POST" "https://api.example.com/1/r"
      (XPlugin.oauthParams rfc5849Creds "kllo9940pd9333jh" "1318622958")
      = oauthBaseLit := by
  refine ⟨?_, oauth_base_string_eq⟩
  show base64Encode (hmacSha1
      (stringUtf8 (encodeURIComponent rfc5849Creds.apiSecret ++ "&"
        ++ encodeURIComponent rfc5849Creds.accessSecret))
      (stringUtf8 (XPlugin.signatureBaseString "POST" "https://api.example.com/1/r"
        (XPlugin.oauthParams rfc5849Creds "kllo9940pd9333jh" "1318622958")))) = _
  rw [oauth_base_string_eq, oauth_signing_key_eq]
  exact oauth_hmac_eq

/-- Claim C4, counterexample: at the claim's inputs the signer does NOT
produce the claimed value `tnnArxj06cWHq44gCs1OSKk/jLY=`. -/
theorem c4_oauth_signature_counterexample :
    XPlugin.buildOAuthSignature "POST" "https://api.example.com/1/r" rfc5849Creds
      "kllo9940pd9333jh" "1318622958" ≠ "tnnArxj06cWHq44gCs1OSKk/jLY=" := by
  show base64Encode (hmacSha1
      (stringUtf8 (encodeURIComponent rfc5849Creds.apiSecret ++ "&"
        ++ encodeURIComponent rfc5849Creds.accessSecret))
      (stringUtf8 (XPlugin.signatureBaseString "POST" "https://api.example.com/1/r"
        (XPlugin.oauthParams rfc5849Creds "kllo9940pd9333jh" "1318622958")))) ≠ _
  rw [oauth_base_string_eq, oauth_signing_key_eq, oauth_hmac_eq]
  decide

/-! ## Claim C8 -/

/-- The stored Spotify access token under `spotifyKc`. -/
theorem spotifyKc_access (a r c : String) :
    (spotifyKc a r c).get "spotify" "access_token" = some a := rfl

/-- The stored Spotify refresh token under `spotifyKc`. -/
theorem spotifyKc_refresh (a r c : String) :
    (spotifyKc a r c).get "spotify" "refresh_token" = some r := rfl

/-- The stored Spotify client id under `spotifyKc`. -/
theorem spotifyKc_client (a r c : String) :
    (spotifyKc a r c).get "spotify" "client_id" = some c := rfl

/-- Claim C8, amended (corrected): `spotifyFetch` returns the empty
object for 2xx empty-body responses with status 204 or 202; `calFetch`
and `n8nFetch` do so only for 204 — and `gmailFetch` never does (see the
counterexample). -/
theorem c8_empty_body_amended (path : String) (opts : FetchOptions) (a r c u : String)
    (o : Nat → HttpResponse) (ha : a ≠ "")
    (h0 : (o 0).status = 204 ∨ (o 0).status = 202) :
    ((runProc (SpotifyPlugin.spotifyFetch path opts)
        { kc := spotifyKc a r c, oracle := o }).1 = .ok (.obj []))
  ∧ ((o 0).status = 204 →
      (runProc (GoogleCalendarPlugin.calFetch path opts)
          { kc := googleKc, oracle := o }).1 = .ok (.obj [])
    ∧ (runProc (N8nPlugin.n8nFetch path opts)
          { kc := n8nKc u, oracle := o }).1 = .ok (.obj [])) := by
  constructor
  · rcases h0 with h0 | h0 <;>
      simp [SpotifyPlugin.spotifyFetch, SpotifyPlugin.spotifyFetchAux,
            SpotifyPlugin.spotifyFetchGo, SpotifyPlugin.getToken,
            SpotifyPlugin.finishFetch, runProc, spotifyKc_access, h0, ha,
            HttpResponse.ok]
  · intro h204
    constructor
    · simp [GoogleCalendarPlugin.calFetch, GoogleCalendarPlugin.calFinish,
            GoogleCalendarPlugin.getToken,
            runProc, googleKc, Keychain.get, List.lookup, h204, HttpResponse.ok]
    · simp [N8nPlugin.n8nFetch, N8nPlugin.n8nFinish, N8nPlugin.getConfig, runProc, n8nKc,
            Keychain.get, List.lookup, h204, HttpResponse.ok]

/-- Concrete instantiation of the amended C8 theorem at a 202 response
for Spotify and a 204 response for Calendar and n8n. -/
theorem c8_empty_body_amended_witness :
    ((runProc (SpotifyPlugin.spotifyFetch "/me/player" { method := "PUT" })
        { kc := spotifyKc "A" "R" "C", oracle := oracleOf [r202] r202 }).1 = .ok (.obj []))
  ∧ ((runProc (GoogleCalendarPlugin.calFetch "/x" { method := "DELETE" })
        { kc := googleKc, oracle := oracleOf [r204] r204 }).1 = .ok (.obj [])) :=
  ⟨(c8_empty_body_amended "/me/player" { method := "PUT" } "A" "R" "C" "u"
      (oracleOf [r202] r202) (by decide) (Or.inr rfl)).1,
   ((c8_empty_body_amended "/x" { method := "DELETE" } "A" "R" "C" "u"
      (oracleOf [r204] r204) (by decide) (Or.inl rfl)).2 rfl).1⟩

/-- Claim C8, counterexample: `gmailFetch` has no empty-body special
case — a 204 response with an empty body makes `res.json()` reject, so
the call fails with a parse error instead of returning the empty
object.  (`n8nFetch` likewise fails on a 202 empty-body response.) -/
theorem c8_empty_body_counterexample :
    (runProc (GmailPlugin.gmailFetch "/labels" { method := "GET" })
        { kc := googleKc, oracle := oracleOf [r204] r204 }).1
      = .error { message := "Unexpected end of JSON input" }
  ∧ (runProc (N8nPlugin.n8nFetch "/tags" { method := "GET" })
        { kc := n8nKc "https://n8n.example.com", oracle := oracleOf [r202] r202 }).1
      = .error { message := "Unexpected end of JSON input" } :=
  ⟨rfl, rfl⟩

/-! ## Claim C2 -/

/-- A Spotify Web API URL is never the token-endpoint URL (they differ
at character 9, whatever the path). -/
theorem spotify_api_url_ne_token (path : String) :
    SPOTIFY_BASE ++ path ≠ SPOTIFY_AUTH ++ "/api/token" := by
  intro h
  have hd : SPOTIFY_BASE.data ++ path.data = (SPOTIFY_AUTH ++ "/api/token").data :=
    congrArg String.data h
  have h9 : (SPOTIFY_BASE.data ++ path.data)[9]? = ((SPOTIFY_AUTH ++ "/api/token").data)[9]? := by
    rw [hd]
  rw [List.getElem?_append_left (by decide)] at h9
  revert h9
  decide

/-- Boolean form of `spotify_api_url_ne_token`. -/
theorem tokenReq_beq_api_false (path : String) :
    ((SPOTIFY_BASE ++ path) == SPOTIFY_AUTH ++ "/api/token") = false :=
  beq_false_of_ne (spotify_api_url_ne_token path)

/-- Every `SPOTIFY_BASE ++ path` URL counts as a Web API request. -/
theorem api_prefix_api_true (path : String) :
    SPOTIFY_BASE.data.isPrefixOf ((SPOTIFY_BASE ++ path).data) = true := by
  have hd : (SPOTIFY_BASE ++ path).data = SPOTIFY_BASE.data ++ path.data := rfl
  rw [hd, List.isPrefixOf_iff_prefix]
  exact List.prefix_append _ _

/-- A Gmail API URL is never the Spotify token-endpoint URL. -/
theorem gmail_url_ne_spotify_token (path : String) :
    ¬ GMAIL_BASE ++ path = SPOTIFY_AUTH ++ "/api/token" := by
  intro h
  have hd : GMAIL_BASE.data ++ path.data = (SPOTIFY_AUTH ++ "/api/token").data :=
    congrArg String.data h
  have h8 : (GMAIL_BASE.data ++ path.data)[8]? = ((SPOTIFY_AUTH ++ "/api/token").data)[8]? := by
    rw [hd]
  rw [List.getElem?_append_left (by decide)] at h8
  revert h8
  decide

/-- The tail of `spotifyFetch` after the 401 branch performs no further
effects: it only inspects the response. -/
theorem runProc_finishFetch_world (res : HttpResponse) (w : World) :
    (runProc (SpotifyPlugin.finishFetch res) w).2 = w := by
  unfold SpotifyPlugin.finishFetch
  split
  · rfl
  · split
    · rfl
    · unfold resJson
      split <;> rfl

/-- Reading the access token after a refresh that also rotated the
refresh token still yields the newly stored access token. -/
theorem get_access_after_rotation (kc : Keychain) (b rt2 : String) :
    ((kc.set "spotify" "access_token" b).set "spotify" "refresh_token" rt2).get
        "spotify" "access_token" = some b := by
  rw [Keychain.get_set_ne _ _ (by decide), Keychain.get_set_self]

/-- Claim C2, amended (corrected): the refresh contract holds for
`spotifyFetch` — a 401 with stored refresh token and client id triggers
exactly one token-endpoint request; when the refresh succeeds the
original call is retried exactly once (two Web API requests in total),
and when the token endpoint answers non-ok the call fails with the
auth-expired error after a single Web API request.  It does NOT hold
for `gmailFetch`, which never attempts a refresh: a 401 there fails
immediately with the re-authenticate error after its single request. -/
theorem c2_refresh_contract_amended (path : String) (opts : FetchOptions)
    (a r c b : String) (jb : Json) (o : Nat → HttpResponse)
    (ha : a ≠ "") (hr : r ≠ "") (hc : c ≠ "") (h0 : (o 0).status = 401) :
    ((o 1).status = 200 → (o 1).body = some jb →
      (jb.get "access_token").bind Json.asString = some b → b ≠ "" →
      countReqs isSpotifyTokenReq
        (runProc (SpotifyPlugin.spotifyFetch path opts)
          { kc := spotifyKc a r c, oracle := o }).2.events = 1
      ∧ countReqs isSpotifyApiReq
          (runProc (SpotifyPlugin.spotifyFetch path opts)
            { kc := spotifyKc a r c, oracle := o }).2.events = 2)
  ∧ ((o 1).ok = false →
      countReqs isSpotifyTokenReq
        (runProc (SpotifyPlugin.spotifyFetch path opts)
          { kc := spotifyKc a r c, oracle := o }).2.events = 1
      ∧ countReqs isSpotifyApiReq
          (runProc (SpotifyPlugin.spotifyFetch path opts)
            { kc := spotifyKc a r c, oracle := o }).2.events = 1
      ∧ (runProc (SpotifyPlugin.spotifyFetch path opts)
            { kc := spotifyKc a r c, oracle := o }).1
          = .error { message :=
              "Spotify token expired and refresh failed. Run: conductor plugins auth spotify" })
  ∧ (countReqs isSpotifyTokenReq
        (runProc (GmailPlugin.gmailFetch path opts) { kc := googleKc, oracle := o }).2.events = 0
      ∧ countReqs (fun _ => true)
          (runProc (GmailPlugin.gmailFetch path opts) { kc := googleKc, oracle := o }).2.events = 1
      ∧ (runProc (GmailPlugin.gmailFetch path opts) { kc := googleKc, oracle := o }).1
          = .error { message := "Google token expired. Re-authenticate: conductor auth google" }) := by
  refine ⟨?_, ?_, ?_⟩
  · intro hok hbody htok hb
    have hok2 : (o 1).ok = true := by simp [HttpResponse.ok, hok]
    rcases hrot : (jb.get "refresh_token").bind Json.asString with _ | rt2
    · simp [SpotifyPlugin.spotifyFetch, SpotifyPlugin.spotifyFetchAux,
        SpotifyPlugin.spotifyFetchGo, SpotifyPlugin.getToken, SpotifyPlugin.refreshToken,
        resJson, runProc, spotifyKc_access, spotifyKc_refresh, spotifyKc_client,
        ha, hr, hc, h0, hok2, hbody, htok, hb, hrot,
        Keychain.get_set_self, runProc_finishFetch_world,
        countReqs, List.countP_cons, isSpotifyTokenReq, isSpotifyApiReq,
        tokenReq_beq_api_false, api_prefix_api_true]
      all_goals decide
    · by_cases hrt : rt2 = "" <;>
        simp [SpotifyPlugin.spotifyFetch, SpotifyPlugin.spotifyFetchAux,
          SpotifyPlugin.spotifyFetchGo, SpotifyPlugin.getToken, SpotifyPlugin.refreshToken,
          resJson, runProc, spotifyKc_access, spotifyKc_refresh, spotifyKc_client,
          ha, hr, hc, h0, hok2, hbody, htok, hb, hrot, hrt, Keychain.get_set_self,
          get_access_after_rotation, runProc_finishFetch_world,
          countReqs, List.countP_cons, isSpotifyTokenReq, isSpotifyApiReq,
          tokenReq_beq_api_false, api_prefix_api_true]
      all_goals decide
  · intro h1
    simp [SpotifyPlugin.spotifyFetch, SpotifyPlugin.spotifyFetchAux,
      SpotifyPlugin.spotifyFetchGo, SpotifyPlugin.getToken, SpotifyPlugin.refreshToken,
      runProc, spotifyKc_access, spotifyKc_refresh, spotifyKc_client,
      ha, hr, hc, h0, h1,
      countReqs, List.countP_cons, isSpotifyTokenReq, isSpotifyApiReq,
      tokenReq_beq_api_false, api_prefix_api_true]
    all_goals decide
  · have hok0 : (o 0).ok = false := by simp [HttpResponse.ok, h0]
    simp [GmailPlugin.gmailFetch, GmailPlugin.gmailFinish, GmailPlugin.getToken,
      runProc, googleKc,
      Keychain.get, List.lookup, h0, hok0, countReqs, List.countP_cons,
      isSpotifyTokenReq, gmail_url_ne_spotify_token]

/-- Concrete instantiation of the amended C2 theorem: a successful
refresh run (one token request, two API requests) and a failed refresh
run (auth-expired error). -/
theorem c2_refresh_contract_amended_witness :
    (countReqs isSpotifyTokenReq
      (runProc (SpotifyPlugin.spotifyFetch "/me" { method := "GET" })
        { kc := spotifyKc "A" "R" "C",
          oracle := oracleOf [r401, rOkTok "B"] rOkEmpty }).2.events = 1
    ∧ countReqs isSpotifyApiReq
        (runProc (SpotifyPlugin.spotifyFetch "/me" { method := "GET" })
          { kc := spotifyKc "A" "R" "C",
            oracle := oracleOf [r401, rOkTok "B"] rOkEmpty }).2.events = 2)
  ∧ (runProc (SpotifyPlugin.spotifyFetch "/me" { method := "GET" })
        { kc := spotifyKc "A" "R" "C", oracle := oracleOf [] r401 }).1
      = .error { message :=
          "Spotify token expired and refresh failed. Run: conductor plugins auth spotify" } :=
  ⟨(c2_refresh_contract_amended "/me" { method := "GET" } "A" "R" "C" "B"
      (.obj [("access_token", .str "B")])
      (oracleOf [r401, rOkTok "B"] rOkEmpty) (by decide) (by decide) (by decide)
      rfl).1 rfl rfl rfl (by decide),
   ((c2_refresh_contract_amended "/me" { method := "GET" } "A" "R" "C" "B"
      (.obj [("access_token", .str "B")])
      (oracleOf [] r401) (by decide) (by decide) (by decide) rfl).2.1 rfl).2.2⟩

/-- Claim C2, counterexample: `gmailFetch` receives a 401 while a
refresh token is stored under `google/refresh_token`, yet no refresh is
attempted — the call issues exactly one request and fails with the
re-authenticate error, contradicting "exactly one refresh is attempted
... for every plugin's envelope, including gmailFetch". -/
theorem c2_refresh_counterexample :
    googleKc.get "google" "refresh_token" = some "R"
  ∧ (runProc (GmailPlugin.gmailFetch "/messages" { method := "GET" })
        { kc := googleKc, oracle := oracleOf [] r401 }).1
      = .error { message := "Google token expired. Re-authenticate: conductor auth google" }
  ∧ (runProc (GmailPlugin.gmailFetch "/messages" { method := "GET" })
        { kc := googleKc, oracle := oracleOf [] r401 }).2.reqCount = 1 :=
  ⟨rfl, rfl, rfl⟩

/-! ## Claim C5 -/

/-- No Web API URL is a prefix-match for the token endpoint. -/
theorem api_prefix_token_false :
    SPOTIFY_BASE.data.isPrefixOf ((SPOTIFY_AUTH ++ "/api/token").data) = false := by
  decide

/-- Propositional form of `api_prefix_token_false`. -/
theorem api_not_prefix_token_prop :
    ¬ (SPOTIFY_BASE.data <+: SPOTIFY_AUTH.data
        ++ ['/', 'a', 'p', 'i', '/', 't', 'o', 'k', 'e', 'n']) := by
  decide

/-- Claim C5 (confirmed): in every execution where a 401-triggered
refresh succeeds, the keychain write of the new access token occurs
strictly before the retried Web API request, and the retried request
carries the new token as its bearer. -/
theorem c5_token_persisted_before_retry (path : String) (opts : FetchOptions)
    (a r c b : String) (jb : Json) (o : Nat → HttpResponse)
    (ha : a ≠ "") (hr : r ≠ "") (hc : c ≠ "")
    (h0 : (o 0).status = 401) (hok : (o 1).status = 200) (hbody : (o 1).body = some jb)
    (htok : (jb.get "access_token").bind Json.asString = some b) (hb : b ≠ "") :
    setBeforeSecondApi b
      (runProc (SpotifyPlugin.spotifyFetch path opts)
        { kc := spotifyKc a r c, oracle := o }).2.events = true
  ∧ (nthReqMatching isSpotifyApiReq 1
      (runProc (SpotifyPlugin.spotifyFetch path opts)
        { kc := spotifyKc a r c, oracle := o }).2.events).map HttpRequest.bearer
      = some (some b) := by
  have hok2 : (o 1).ok = true := by simp [HttpResponse.ok, hok]
  rcases hrot : (jb.get "refresh_token").bind Json.asString with _ | rt2
  · simp [SpotifyPlugin.spotifyFetch, SpotifyPlugin.spotifyFetchAux,
      SpotifyPlugin.spotifyFetchGo, SpotifyPlugin.getToken, SpotifyPlugin.refreshToken,
      resJson, runProc, spotifyKc_access, spotifyKc_refresh, spotifyKc_client,
      ha, hr, hc, h0, hok2, hbody, htok, hb, hrot,
      Keychain.get_set_self, runProc_finishFetch_world,
      setBeforeSecondApi, idxOfNth, nthReqMatching, isSetSpotifyAccess, isSpotifyApiEvent,
      isSpotifyApiReq, api_prefix_api_true, api_prefix_token_false,
      api_not_prefix_token_prop]
  · by_cases hrt : rt2 = "" <;>
      simp [SpotifyPlugin.spotifyFetch, SpotifyPlugin.spotifyFetchAux,
        SpotifyPlugin.spotifyFetchGo, SpotifyPlugin.getToken, SpotifyPlugin.refreshToken,
        resJson, runProc, spotifyKc_access, spotifyKc_refresh, spotifyKc_client,
        ha, hr, hc, h0, hok2, hbody, htok, hb, hrot, hrt, Keychain.get_set_self,
        get_access_after_rotation, runProc_finishFetch_world,
        setBeforeSecondApi, idxOfNth, nthReqMatching, isSetSpotifyAccess, isSpotifyApiEvent,
        isSpotifyApiReq, api_prefix_api_true, api_prefix_token_false,
        api_not_prefix_token_prop]

/-- Concrete instantiation of the C5 theorem on a successful refresh
run. -/
theorem c5_token_persisted_before_retry_witness :
    setBeforeSecondApi "B"
      (runProc (SpotifyPlugin.spotifyFetch "/me" { method := "GET" })
        { kc := spotifyKc "A" "R" "C",
          oracle := oracleOf [r401, rOkTok "B"] rOkEmpty }).2.events = true :=
  (c5_token_persisted_before_retry "/me" { method := "GET" } "A" "R" "C" "B"
    (.obj [("access_token", .str "B")])
    (oracleOf [r401, rOkTok "B"] rOkEmpty) (by decide) (by decide) (by decide)
    rfl rfl rfl rfl (by decide)).1

/-! ## Claim C3 -/

/-- Claim C3, counterexample: two concurrent `spotifyFetch` calls that
both observe 401 on the stale token each start their own refresh — under
the alternating schedule the token endpoint is hit twice, refuting "at
most one token-endpoint request is issued". -/
theorem c3_concurrent_refresh_counterexample :
    countReqs isSpotifyTokenReq
      (runThreads bothObserve401Schedule
        [SpotifyPlugin.spotifyFetch "/me" { method := "GET" },
         SpotifyPlugin.spotifyFetch "/me" { method := "GET" }]
        { kc := spotifyKc "A" "R" "C",
          oracle := oracleOf [r401, r401] (rOkTok "B") }).2.events = 2
  ∧ 1 < countReqs isSpotifyTokenReq
      (runThreads bothObserve401Schedule
        [SpotifyPlugin.spotifyFetch "/me" { method := "GET" },
         SpotifyPlugin.spotifyFetch "/me" { method := "GET" }]
        { kc := spotifyKc "A" "R" "C",
          oracle := oracleOf [r401, r401] (rOkTok "B") }).2.events := by
  constructor <;> decide

/-- Claim C3, amended (corrected): `refreshToken` has no single-flight
latch, so concurrent 401 observers do NOT join an in-progress refresh:
there is an interleaving of two concurrent calls, both observing 401, in
which each runs its own refresh — two token-endpoint requests and four
Web API requests are issued, and both retries complete against the
refreshed token. -/
theorem c3_no_single_flight_amended :
    countReqs isSpotifyTokenReq
      (runThreads bothObserve401Schedule
        [SpotifyPlugin.spotifyFetch "/me" { method := "GET" },
         SpotifyPlugin.spotifyFetch "/me" { method := "GET" }]
        { kc := spotifyKc "A" "R" "C",
          oracle := oracleOf [r401, r401] (rOkTok "B") }).2.events = 2
  ∧ countReqs isSpotifyApiReq
      (runThreads bothObserve401Schedule
        [SpotifyPlugin.spotifyFetch "/me" { method := "GET" },
         SpotifyPlugin.spotifyFetch "/me" { method := "GET" }]
        { kc := spotifyKc "A" "R" "C",
          oracle := oracleOf [r401, r401] (rOkTok "B") }).2.events = 4
  ∧ (runThreads bothObserve401Schedule
        [SpotifyPlugin.spotifyFetch "/me" { method := "GET" },
         SpotifyPlugin.spotifyFetch "/me" { method := "GET" }]
        { kc := spotifyKc "A" "R" "C",
          oracle := oracleOf [r401, r401] (rOkTok "B") }).2.kc.get
        "spotify" "access_token" = some "B" := by
  refine ⟨by decide, by decide, by decide⟩

/-! ## Claim C6 -/

/-- The response handling of `gmailFetch` performs no further effects. -/
theorem runProc_gmailFinish_world (res : HttpResponse) (w : World) :
    (runProc (GmailPlugin.gmailFinish res) w).2 = w := by
  unfold GmailPlugin.gmailFinish
  split
  · split <;> rfl
  · unfold resJson
    split <;> rfl

/-- The response handling of `calFetch` performs no further effects. -/
theorem runProc_calFinish_world (res : HttpResponse) (w : World) :
    (runProc (GoogleCalendarPlugin.calFinish res) w).2 = w := by
  unfold GoogleCalendarPlugin.calFinish
  split
  · split <;> rfl
  · split
    · rfl
    · unfold resJson
      split <;> rfl

/-- The response handling of `n8nFetch` performs no further effects. -/
theorem runProc_n8nFinish_world (res : HttpResponse) (w : World) :
    (runProc (N8nPlugin.n8nFinish res) w).2 = w := by
  unfold N8nPlugin.n8nFinish
  split
  · rfl
  · split
    · rfl
    · unfold resJson
      split <;> rfl

set_option maxRecDepth 1000000 in
/-- Claim C6, amended (corrected): the Gmail, Calendar and n8n
envelopes issue at most one HTTP request per logical call — they have no
retry wrapper at all — and `spotifyFetch` retries only via its single
401-refresh; but the X plugin's
`xPost` wraps its non-idempotent POST in the shared `withRetry` helper,
so the destructive `x_post_tweet` (marked `requiresApproval: true`) has
its POST re-executed after a transient 500: two POSTs in one logical
call, with no caller opt-in. -/
theorem c6_no_auto_retry_amended (path : String) (opts : FetchOptions)
    (kc : Keychain) (o : Nat → HttpResponse) :
    countReqs (fun _ => true)
      (runProc (GmailPlugin.gmailFetch path opts) { kc := kc, oracle := o }).2.events ≤ 1
  ∧ countReqs (fun _ => true)
      (runProc (GoogleCalendarPlugin.calFetch path opts) { kc := kc, oracle := o }).2.events ≤ 1
  ∧ countReqs (fun _ => true)
      (runProc (N8nPlugin.n8nFetch path opts) { kc := kc, oracle := o }).2.events ≤ 1
  ∧ x_post_tweet_def.approvalRequired = true
  ∧ countReqs isTweetPost
      (runProc (XPlugin.x_post_tweet_handler "hi" none "n" "1")
        { kc := xKc, oracle := oracleOf [r500, rOkTweet] rOkTweet }).2.events = 2 := by
  refine ⟨?_, ?_, ?_, rfl, by decide⟩
  · rcases hga : Keychain.get kc "google" "access_token" with _ | t
    · simp [GmailPlugin.gmailFetch, GmailPlugin.getToken, runProc, hga, countReqs]
    · by_cases ht : t = "" <;>
        simp [GmailPlugin.gmailFetch, GmailPlugin.getToken, runProc, hga, ht,
              runProc_gmailFinish_world, countReqs, List.countP_cons]
  · rcases hga : Keychain.get kc "google" "access_token" with _ | t
    · simp [GoogleCalendarPlugin.calFetch, GoogleCalendarPlugin.getToken, runProc, hga,
            countReqs]
    · by_cases ht : t = "" <;>
        simp [GoogleCalendarPlugin.calFetch, GoogleCalendarPlugin.getToken, runProc,
              hga, ht, runProc_calFinish_world, countReqs, List.countP_cons]
  · rcases hk : Keychain.get kc "n8n" "api_key" with _ | k
    · simp [N8nPlugin.n8nFetch, N8nPlugin.getConfig, runProc, hk, countReqs]
    · by_cases hke : k = "" <;>
        simp [N8nPlugin.n8nFetch, N8nPlugin.getConfig, runProc, hk, hke,
              runProc_n8nFinish_world, countReqs, List.countP_cons]

set_option maxRecDepth 1000000 in
/-- Claim C6, counterexample: the handler of `x_post_tweet` — a
destructive tool with `requiresApproval: true` — goes through `xPost`,
which IS wrapped in the automatic retry helper: after a transient 500
the same POST `/tweets` is executed a second time within one logical
call, without any caller opt-in. -/
theorem c6_no_retry_counterexample :
    x_post_tweet_def.approvalRequired = true
  ∧ countReqs isTweetPost
      (runProc (XPlugin.x_post_tweet_handler "hi" none "n" "1")
        { kc := xKc, oracle := oracleOf [r500, rOkTweet] rOkTweet }).2.events = 2 :=
  ⟨rfl, by decide⟩
